import Mathlib

/-!
Shallow embedding of the order/cart/payment consistency core of the
fast_api_online_cinema_project repository, together with proofs checking the
natural-language specification against it.

Sources embedded (file names relative to the repository root):
  * src/database/models/orders.py, src/database/models/payments.py — data model
  * src/repositories/orders/order_repo.py — OrderRepository
  * src/repositories/payments/payments_repo.py — PaymentsRepository
  * src/repositories/cart/cart_rep.py — CartRepository
  * src/repositories/movies/movies.py — update_movie (price field only)
  * src/services/orders/orders_service.py — OrdersService
  * src/services/payments/payments_service.py — PaymentService
  * src/providers/stripe_payment_provider.py — StripePaymentProvider
  * src/routes/orders.py — handle_payment_webhook

Money (python Decimal, DECIMAL(10,2)) is modelled as Int (exact cents);
every operation in the embedded core only copies and sums prices, so no
precision is lost.  Each repository method commits on its own, exactly as
in the source: the embedding therefore exposes every intermediate committed
state of a multi-commit service operation.
-/

namespace Cinema

/-- Order status enum from src/database/models/orders.py. -/
inductive OrderStatus
  | pending
  | paid
  | canceled
  deriving DecidableEq

/-- Payment status enum from src/database/models/payments.py. -/
inductive PaymentStatus
  | pending
  | processing
  | successful
  | canceled
  | refunded
  deriving DecidableEq

/-- The part of MovieModel the core reads: id and catalog price. -/
structure Movie where
  id : Nat
  price : Int
  deriving DecidableEq

/-- CartItemsModel: one movie per cart row (movie relationship resolved via
the catalog). -/
structure CartItem where
  movieId : Nat
  deriving DecidableEq

/-- CartModel: one cart per user with its items. -/
structure Cart where
  userId : Nat
  items : List CartItem
  deriving DecidableEq

/-- OrderItems row: movie id and price frozen at order time. -/
structure OrderItem where
  id : Nat
  movieId : Nat
  priceAtOrder : Int
  deriving DecidableEq

/-- Orders row with its items (selectin-loaded in the source). -/
structure Order where
  id : Nat
  userId : Nat
  status : OrderStatus
  totalAmount : Int
  items : List OrderItem
  deriving DecidableEq

/-- PaymentItem row: order item reference and price frozen at payment time. -/
structure PaymentItem where
  orderItemId : Nat
  priceAtPayment : Int
  deriving DecidableEq

/-- Payment row with its payment items. -/
structure Payment where
  id : Nat
  userId : Nat
  orderId : Nat
  amount : Int
  status : PaymentStatus
  externalPaymentId : String
  paymentItems : List PaymentItem
  deriving DecidableEq

/-- The committed database state: the tables the core touches plus
autoincrement counters. -/
structure DB where
  catalog : List Movie
  carts : List Cart
  orders : List Order
  payments : List Payment
  nextOrderId : Nat
  nextOrderItemId : Nat
  nextPaymentId : Nat
  deriving DecidableEq

/-- Errors raised by the core: HTTPException(status, detail) plus the three
domain exceptions that can escape a service call uncaught. -/
inductive Err
  | http (status : Nat) (detail : String)
  | orderNotFound (orderId : Nat)
  | cartNotFound (userId : Nat)
  | valueError (detail : String)
  deriving DecidableEq

/-- Decidable equality on results, so the model evaluates on concrete
inputs. -/
instance {e a : Type} [DecidableEq e] [DecidableEq a] : DecidableEq (Except e a)
  | .ok x, .ok y =>
    if h : x = y then .isTrue (by rw [h])
    else .isFalse (fun hc => by cases hc; exact h rfl)
  | .ok _, .error _ => .isFalse (fun hc => by cases hc)
  | .error _, .ok _ => .isFalse (fun hc => by cases hc)
  | .error x, .error y =>
    if h : x = y then .isTrue (by rw [h])
    else .isFalse (fun hc => by cases hc; exact h rfl)

/-- Navigation of the item.movie.price relationship: catalog price of a movie
(the FK guarantees presence; 0 is only the totality default). -/
def priceOf (catalog : List Movie) (movieId : Nat) : Int :=
  match catalog.find? (fun m => m.id = movieId) with
  | none => 0
  | some m => m.price

/-- OrderRepository.get_order_by_id: raises OrderNotFoundError when absent. -/
def OrderRepository.get_order_by_id (db : DB) (orderId : Nat) : Except Err Order :=
  match db.orders.find? (fun o => o.id = orderId) with
  | none => .error (.orderNotFound orderId)
  | some o => .ok o

/-- OrderRepository.create_order: add + commit + refresh; ids were assigned
from the autoincrement counters, which the commit advances. -/
def OrderRepository.create_order (db : DB) (order : Order) : Order × DB :=
  (order,
   { db with
      orders := db.orders ++ [order]
      nextOrderId := db.nextOrderId + 1
      nextOrderItemId := db.nextOrderItemId + order.items.length })

/-- OrderRepository._check_order_exists: is there an order item of this user
with this movie in an order of the given status? -/
def OrderRepository.check_order_exists
    (db : DB) (userId movieId : Nat) (status : OrderStatus) : Bool :=
  db.orders.any (fun o =>
    o.userId = userId && o.status = status &&
      o.items.any (fun it => it.movieId = movieId))

/-- OrderRepository.check_movie_purchased. -/
def OrderRepository.check_movie_purchased (db : DB) (userId movieId : Nat) : Bool :=
  OrderRepository.check_order_exists db userId movieId .paid

/-- OrderRepository.check_pending_order. -/
def OrderRepository.check_pending_order (db : DB) (userId movieId : Nat) : Bool :=
  OrderRepository.check_order_exists db userId movieId .pending

/-- The committed effect of a status UPDATE on the orders table. -/
def setOrderStatus (db : DB) (orderId : Nat) (status : OrderStatus) : DB :=
  { db with
     orders := db.orders.map (fun o =>
       if o.id = orderId then { o with status := status } else o) }

/-- OrderRepository.update_order_status: fetch by id (OrderNotFoundError when
absent), set the status unconditionally, commit. -/
def OrderRepository.update_order_status
    (db : DB) (orderId : Nat) (status : OrderStatus) : Except Err (Order × DB) :=
  match OrderRepository.get_order_by_id db orderId with
  | .error e => .error e
  | .ok order => .ok ({ order with status := status }, setOrderStatus db orderId status)

/-- PaymentsRepository.get_payment_by_external_id: first row matching the
external id. -/
def PaymentsRepository.get_payment_by_external_id
    (db : DB) (externalPaymentId : String) : Option Payment :=
  db.payments.find? (fun p => p.externalPaymentId = externalPaymentId)

/-- PaymentsRepository.get_successful_payment_by_order_id: first row for the
order whose status is SUCCESSFUL. -/
def PaymentsRepository.get_successful_payment_by_order_id
    (db : DB) (orderId : Nat) : Option Payment :=
  db.payments.find? (fun p => p.orderId = orderId && p.status = .successful)

/-- PaymentsRepository.get_payment_by_id (db.get by primary key). -/
def PaymentsRepository.get_payment_by_id (db : DB) (paymentId : Nat) : Option Payment :=
  db.payments.find? (fun p => p.id = paymentId)

/-- The committed effect of a status UPDATE on the payments table. -/
def setPaymentStatus (db : DB) (paymentId : Nat) (status : PaymentStatus) : DB :=
  { db with
     payments := db.payments.map (fun q =>
       if q.id = paymentId then { q with status := status } else q) }

/-- PaymentsRepository.update_payment_status: fetch by id (ValueError when
absent), set the status, commit, return the refreshed row. -/
def PaymentsRepository.update_payment_status
    (db : DB) (paymentId : Nat) (status : PaymentStatus) : Except Err (Payment × DB) :=
  match PaymentsRepository.get_payment_by_id db paymentId with
  | none => .error (.valueError "Payment not found")
  | some p => .ok ({ p with status := status }, setPaymentStatus db paymentId status)

/-- PaymentsRepository.create_payment: add + commit + refresh. -/
def PaymentsRepository.create_payment (db : DB) (payment : Payment) : Payment × DB :=
  (payment,
   { db with
      payments := db.payments ++ [payment]
      nextPaymentId := db.nextPaymentId + 1 })

/-- CartRepository.get_by_user_id: raises CartNotFoundError when the user has
no cart; never returns a falsy value. -/
def CartRepository.get_by_user_id (db : DB) (userId : Nat) : Except Err Cart :=
  match db.carts.find? (fun c => c.userId = userId) with
  | none => .error (.cartNotFound userId)
  | some c => .ok c

/-- CartRepository.delete: fetch the cart (CartNotFoundError when absent),
delete it, commit. -/
def CartRepository.delete (db : DB) (userId : Nat) : Except Err DB :=
  match CartRepository.get_by_user_id db userId with
  | .error e => .error e
  | .ok _ => .ok { db with carts := db.carts.filter (fun c => c.userId ≠ userId) }

/-- MovieRepository.update_movie restricted to the price field: fetch the
movie and set the provided attribute, commit.  This is the catalog price
change operation. -/
def MovieRepository.update_movie_price (db : DB) (movieId : Nat) (price : Int) : DB :=
  { db with
     catalog := db.catalog.map (fun m =>
       if m.id = movieId then { m with price := price } else m) }

/-- The eligibility loop of OrdersService.create_order: walk the cart items
in order; an item whose movie the user already purchased (a PAID order
exists) or already holds in a PENDING order goes to the excluded movie-id
list, everything else stays a valid item. -/
def OrdersService.split_cart_items (db : DB) (userId : Nat) :
    List CartItem → List CartItem × List Nat
  | [] => ([], [])
  | item :: rest =>
    let (valid, excl) := OrdersService.split_cart_items db userId rest
    if OrderRepository.check_movie_purchased db userId item.movieId then
      (valid, item.movieId :: excl)
    else if OrderRepository.check_pending_order db userId item.movieId then
      (valid, item.movieId :: excl)
    else
      (item :: valid, excl)

/-- Construction of the OrderItems rows of a new order: movie id and the
catalog price frozen as price_at_order, with autoincrement ids. -/
def buildOrderItems (catalog : List Movie) (nextId : Nat) :
    List CartItem → List OrderItem
  | [] => []
  | item :: rest =>
    { id := nextId, movieId := item.movieId,
      priceAtOrder := priceOf catalog item.movieId }
      :: buildOrderItems catalog (nextId + 1) rest

/-- First half of OrdersService.create_order, everything through the first
commit: load the cart (CartNotFoundError propagates uncaught when the user
has no cart — the source guard for the 400 "Cart is empty." response tests
the truthiness of a returned model instance and can never fire), split the
items by purchase eligibility, fail 400 when no valid item remains, build
the order with total_amount the sum of the valid items' catalog prices and
commit it.  The returned state is durably committed before the cart delete
runs. -/
def OrdersService.create_order_stage1 (db : DB) (userId : Nat) :
    Except Err (Order × List Nat × DB) :=
  match CartRepository.get_by_user_id db userId with
  | .error e => .error e
  | .ok cart =>
    let (validItems, excludeMovieIds) :=
      OrdersService.split_cart_items db userId cart.items
    if validItems.isEmpty then
      .error (.http 400 "No valid items in cart.")
    else
      let totalAmount : Int :=
        (validItems.map (fun item => priceOf db.catalog item.movieId)).sum
      let order : Order :=
        { id := db.nextOrderId
          userId := userId
          status := .pending
          totalAmount := totalAmount
          items := buildOrderItems db.catalog db.nextOrderItemId validItems }
      let (order', db₁) := OrderRepository.create_order db order
      .ok (order', excludeMovieIds, db₁)

/-- OrdersService.create_order: the order-building commit followed by the
separate cart-delete commit.  Returns (order, excluded movie ids, final
state). -/
def OrdersService.create_order (db : DB) (userId : Nat) :
    Except Err (Order × List Nat × DB) :=
  match OrdersService.create_order_stage1 db userId with
  | .error e => .error e
  | .ok (order, excludeMovieIds, db₁) =>
    match CartRepository.delete db₁ userId with
    | .error e => .error e
    | .ok db₂ => .ok (order, excludeMovieIds, db₂)

/-- OrdersService.complete_order: only a PENDING order may be completed; the
new status is PAID on payment success, else CANCELED. -/
def OrdersService.complete_order (db : DB) (orderId : Nat) (paymentSuccess : Bool) :
    Except Err (Order × DB) :=
  match OrderRepository.get_order_by_id db orderId with
  | .error (.orderNotFound oid) =>
    .error (.http 404 ("Order with id " ++ toString oid ++ " not found"))
  | .error e => .error e
  | .ok order =>
    if order.status ≠ OrderStatus.pending then
      .error (.http 400 "Order cannot be paid")
    else
      let newStatus := if paymentSuccess then OrderStatus.paid else OrderStatus.canceled
      OrderRepository.update_order_status db orderId newStatus

/-- OrdersService.cancel_order: only the owner may cancel, and only while the
order is PENDING. -/
def OrdersService.cancel_order (db : DB) (orderId userId : Nat) :
    Except Err (Order × DB) :=
  match OrderRepository.get_order_by_id db orderId with
  | .error (.orderNotFound oid) =>
    .error (.http 404 ("Order with id " ++ toString oid ++ " not found"))
  | .error e => .error e
  | .ok order =>
    if order.userId ≠ userId then
      .error (.http 403 "Not authorized")
    else if order.status ≠ OrderStatus.pending then
      .error (.http 400 "Order cannot be canceled")
    else
      OrderRepository.update_order_status db orderId OrderStatus.canceled

/-- The payment provider interface as the PaymentService sees it.  Provider
state is a Nat (intent counter).  initiate returns (payment_url, the id the
provider records as last payment intent id, new provider state);
intentStatus is the live status the provider reports for an intent;
refundOk is whether Refund.create reports "succeeded". -/
structure PaymentProvider where
  initiate : Nat → Int → Nat → String × String × Nat
  intentStatus : String → String
  refundOk : String → Option Int → Bool

/-- StripePaymentProvider.initiate_payment modelled on the provider-state
counter: PaymentIntent.create makes a fresh intent with a new id on every
call, records it as the last intent id, and returns the client secret. -/
def stripeInitiate (_orderId : Nat) (_amount : Int) (n : Nat) : String × String × Nat :=
  ("cs_pi_" ++ toString n, "pi_" ++ toString n, n + 1)

/-- PaymentService.initiate_payment: 404 when the order is missing, 403 when
the caller does not own it, 400 unless it is PENDING; then call the
provider, read the last intent id, and create a Payment row unless one with
that external id already exists. -/
def PaymentService.initiate_payment (P : PaymentProvider) (db : DB) (prov : Nat)
    (orderId userId : Nat) : Except Err (String × DB × Nat) :=
  match OrderRepository.get_order_by_id db orderId with
  | .error (.orderNotFound _) => .error (.http 404 "Order not found")
  | .error e => .error e
  | .ok order =>
    if order.userId ≠ userId then
      .error (.http 403 "Not authorized")
    else if order.status ≠ OrderStatus.pending then
      .error (.http 400 "Order cannot be paid")
    else
      let (payment_url, external_payment_id, prov') :=
        P.initiate orderId order.totalAmount prov
      match PaymentsRepository.get_payment_by_external_id db external_payment_id with
      | some _ => .ok (payment_url, db, prov')
      | none =>
        let payment : Payment :=
          { id := db.nextPaymentId
            userId := userId
            orderId := orderId
            amount := order.totalAmount
            status := .pending
            externalPaymentId := external_payment_id
            paymentItems := order.items.map (fun item =>
              { orderItemId := item.id, priceAtPayment := item.priceAtOrder }) }
        let (_, db') := PaymentsRepository.create_payment db payment
        .ok (payment_url, db', prov')

/-- PaymentService.complete_payment: 404 when no Payment has the external id;
an already-SUCCESSFUL payment is returned unchanged; any status other than
PENDING/PROCESSING is a 400; otherwise the live intent status decides:
processing → PROCESSING; succeeded → order set PAID (first commit) and
payment SUCCESSFUL (second commit); requires_payment_method or
requires_confirmation → PENDING; anything else → CANCELED.  The order
status is never consulted. -/
def PaymentService.complete_payment (P : PaymentProvider) (db : DB)
    (external_payment_id : String) : Except Err (Payment × DB) :=
  match PaymentsRepository.get_payment_by_external_id db external_payment_id with
  | none => .error (.http 404 "Payment not found")
  | some payment =>
    if payment.status = PaymentStatus.successful then
      .ok (payment, db)
    else if payment.status ≠ PaymentStatus.pending ∧ payment.status ≠ PaymentStatus.processing then
      .error (.http 400 "Payment cannot be completed")
    else if P.intentStatus external_payment_id = "processing" then
      PaymentsRepository.update_payment_status db payment.id .processing
    else if P.intentStatus external_payment_id = "succeeded" then
      match OrderRepository.update_order_status db payment.orderId .paid with
      | .error e => .error e
      | .ok (_, db₁) =>
        PaymentsRepository.update_payment_status db₁ payment.id .successful
    else if P.intentStatus external_payment_id = "requires_payment_method" ∨
        P.intentStatus external_payment_id = "requires_confirmation" then
      PaymentsRepository.update_payment_status db payment.id .pending
    else
      PaymentsRepository.update_payment_status db payment.id .canceled

/-- PaymentService.refund_payment: 404 when the order is missing, 403 for a
non-owner, 404 when no SUCCESSFUL payment exists for the order (the lookup
itself filters on SUCCESSFUL, so the two in-code status guards that follow
can never fire), then the provider refund decides between REFUNDED and a
400. -/
def PaymentService.refund_payment (P : PaymentProvider) (db : DB)
    (orderId userId : Nat) (amount : Option Int) : Except Err (Payment × DB) :=
  match OrderRepository.get_order_by_id db orderId with
  | .error (.orderNotFound _) => .error (.http 404 "Order not found")
  | .error e => .error e
  | .ok order =>
    if order.userId ≠ userId then
      .error (.http 403 "Not authorized")
    else
      match PaymentsRepository.get_successful_payment_by_order_id db orderId with
      | none => .error (.http 404 "No successful payment found for this order")
      | some payment =>
        if payment.status ≠ PaymentStatus.successful then
          .error (.http 400 "Payment cannot be refunded")
        else if payment.status = PaymentStatus.refunded then
          .error (.http 400 "Payment has already been refunded")
        else if P.refundOk payment.externalPaymentId amount then
          PaymentsRepository.update_payment_status db payment.id .refunded
        else
          .error (.http 400 "Refund failed in payment provider")

/-- handle_payment_webhook from src/routes/orders.py, after signature
verification: both recognized event types delegate to complete_payment on
the intent id carried by the event; only the response status string
differs.  Unrecognized types are acknowledged with no side effect. -/
def handle_payment_webhook (P : PaymentProvider) (db : DB)
    (eventType : String) (intentId : String) : Except Err (String × DB) :=
  if eventType = "payment_intent.succeeded" then
    (PaymentService.complete_payment P db intentId).map (fun r => ("success", r.2))
  else if eventType = "payment_intent.payment_failed" then
    (PaymentService.complete_payment P db intentId).map (fun r => ("failed", r.2))
  else
    .ok ("ignored", db)

/-! ### Helpers for stating properties -/

/-- Status of the order with the given id, when present. -/
def orderStatusOf (db : DB) (orderId : Nat) : Option OrderStatus :=
  (db.orders.find? (fun o => o.id = orderId)).map (fun o => o.status)

/-- Status of the payment with the given id, when present. -/
def paymentStatusOf (db : DB) (paymentId : Nat) : Option PaymentStatus :=
  (db.payments.find? (fun p => p.id = paymentId)).map (fun p => p.status)

/-- The creation-frozen content of an order: id, total amount and items —
everything except the mutable status. -/
def orderCore (o : Order) : Nat × Int × List OrderItem :=
  (o.id, o.totalAmount, o.items)

/-- A cart item is excluded from a new order when its movie was already
purchased (PAID order) or already sits in a PENDING order of the user. -/
def excludedItem (db : DB) (userId : Nat) (item : CartItem) : Bool :=
  OrderRepository.check_movie_purchased db userId item.movieId ||
    OrderRepository.check_pending_order db userId item.movieId

/-! ### Concrete fixtures used by counterexamples and witnesses -/

/-- Stripe-shaped provider whose live intents all report "succeeded". -/
def fxProviderSucceeded : PaymentProvider :=
  { initiate := stripeInitiate
    intentStatus := fun _ => "succeeded"
    refundOk := fun _ _ => true }

/-- Stripe-shaped provider whose live intents all report "processing". -/
def fxProviderProcessing : PaymentProvider :=
  { fxProviderSucceeded with intentStatus := fun _ => "processing" }

/-- Stripe-shaped provider whose live intents all report
"requires_payment_method". -/
def fxProviderRequires : PaymentProvider :=
  { fxProviderSucceeded with intentStatus := fun _ => "requires_payment_method" }

/-- Stripe-shaped provider whose live intents all report "canceled" (an
unrecognized status for complete_payment). -/
def fxProviderOther : PaymentProvider :=
  { fxProviderSucceeded with intentStatus := fun _ => "canceled" }

/-- Provider that reuses one fixed intent id on every initiation (the
idempotent-replay situation). -/
def fxProviderConst : PaymentProvider :=
  { fxProviderSucceeded with initiate := fun _ _ n => ("cs_pi_0", "pi_0", n) }

/-- A canceled order for movie 1 owned by user 1. -/
def fxOrderCanceled : Order :=
  { id := 1, userId := 1, status := .canceled, totalAmount := 10,
    items := [{ id := 1, movieId := 1, priceAtOrder := 10 }] }

/-- The same order while still PENDING. -/
def fxOrderPending : Order :=
  { fxOrderCanceled with status := .pending }

/-- The same order once PAID. -/
def fxOrderPaid : Order :=
  { fxOrderCanceled with status := .paid }

/-- A pending payment of user 1 for order 1 under intent pi_0. -/
def fxPaymentPending : Payment :=
  { id := 1, userId := 1, orderId := 1, amount := 10, status := .pending,
    externalPaymentId := "pi_0", paymentItems := [] }

/-- The same payment once SUCCESSFUL. -/
def fxPaymentSuccessful : Payment :=
  { fxPaymentPending with status := .successful }

/-- State with a CANCELED order whose payment is still PENDING (reachable:
initiate_payment, then cancel_order while the intent is in flight). -/
def fxDbCanceled : DB :=
  { catalog := [{ id := 1, price := 10 }]
    carts := []
    orders := [fxOrderCanceled]
    payments := [fxPaymentPending]
    nextOrderId := 2, nextOrderItemId := 2, nextPaymentId := 2 }

/-- State with a PENDING order whose payment is still PENDING. -/
def fxDbPay : DB :=
  { fxDbCanceled with orders := [fxOrderPending] }

/-- The same payment once REFUNDED. -/
def fxPaymentRefunded : Payment :=
  { fxPaymentPending with status := .refunded }

/-- State with a PAID order whose only payment is already REFUNDED. -/
def fxDbRefunded : DB :=
  { fxDbCanceled with
     orders := [fxOrderPaid]
     payments := [fxPaymentRefunded] }

/-- State with a PAID order and a SUCCESSFUL payment. -/
def fxDbSuccess : DB :=
  { fxDbCanceled with
     orders := [fxOrderPaid]
     payments := [fxPaymentSuccessful] }

/-- What fxDbCanceled becomes when complete_payment forces its CANCELED
order to PAID on a succeeded intent. -/
def fxDbCanceledPaidAfter : DB :=
  { fxDbCanceled with orders := [fxOrderPaid], payments := [fxPaymentSuccessful] }

/-- What fxDbPay becomes after a successful completion. -/
def fxDbPayAfter : DB :=
  { fxDbPay with orders := [fxOrderPaid], payments := [fxPaymentSuccessful] }

/-- State where user 1 has no cart. -/
def fxDbNoCart : DB :=
  { catalog := [], carts := [], orders := [], payments := [],
    nextOrderId := 1, nextOrderItemId := 1, nextPaymentId := 1 }

/-- State with a PENDING order 1 of user 1 and no payments yet. -/
def fxDbPendingNoPay : DB :=
  { fxDbCanceled with
     orders := [{ fxOrderCanceled with status := .pending }]
     payments := [] }

/-- The Payment row the first initiate_payment retry-scenario call creates. -/
def fxPaymentRetry1 : Payment :=
  { id := 2, userId := 1, orderId := 1, amount := 10, status := .pending,
    externalPaymentId := "pi_0",
    paymentItems := [{ orderItemId := 1, priceAtPayment := 10 }] }

/-- State after the first initiate_payment call on fxDbPendingNoPay. -/
def fxDbRetry1 : DB :=
  { fxDbPendingNoPay with payments := [fxPaymentRetry1], nextPaymentId := 3 }

/-- The second Payment row the retried call creates under the fresh intent
id. -/
def fxPaymentRetry2 : Payment :=
  { fxPaymentRetry1 with id := 3, externalPaymentId := "pi_1" }

/-- State after the retried initiate_payment call: two Payment rows for the
same order. -/
def fxDbRetry2 : DB :=
  { fxDbPendingNoPay with payments := [fxPaymentRetry1, fxPaymentRetry2], nextPaymentId := 4 }

/-- State after canceling the order of fxDbPendingNoPay. -/
def fxDbCanceledNoPay : DB :=
  { fxDbPendingNoPay with orders := [fxOrderCanceled] }

/-- State after completing the order of fxDbPendingNoPay with success. -/
def fxDbPaidNoPay : DB :=
  { fxDbPendingNoPay with orders := [fxOrderPaid] }

/-- A PAID order of user 1 holding movie 1. -/
def fxOrderMovie1Paid : Order :=
  { id := 7, userId := 1, status := .paid, totalAmount := 10,
    items := [{ id := 9, movieId := 1, priceAtOrder := 10 }] }

/-- A cart of user 1 holding movies 1 and 2. -/
def fxCartBoth : Cart :=
  { userId := 1, items := [{ movieId := 1 }, { movieId := 2 }] }

/-- A cart of user 1 holding only movie 1. -/
def fxCartOwned : Cart :=
  { userId := 1, items := [{ movieId := 1 }] }

/-- State with movies 1 and 2 in the catalog, a cart of user 1 holding both,
and an already PAID order for movie 1. -/
def fxDbCart : DB :=
  { catalog := [{ id := 1, price := 10 }, { id := 2, price := 7 }]
    carts := [fxCartBoth]
    orders := [fxOrderMovie1Paid]
    payments := []
    nextOrderId := 8, nextOrderItemId := 10, nextPaymentId := 1 }

/-- Variant of fxDbCart whose cart holds only the already-purchased movie. -/
def fxDbCartAllOwned : DB :=
  { fxDbCart with carts := [fxCartOwned] }

/-- The order create_order builds from fxDbCart: only movie 2 survives. -/
def fxOrderCartNew : Order :=
  { id := 8, userId := 1, status := .pending, totalAmount := 7,
    items := [{ id := 10, movieId := 2, priceAtOrder := 7 }] }

/-- State after create_order on fxDbCart: order persisted, cart gone. -/
def fxDbCartAfter : DB :=
  { fxDbCart with
     carts := []
     orders := [fxOrderMovie1Paid, fxOrderCartNew]
     nextOrderId := 9, nextOrderItemId := 11 }

/-! ### Repository-level lemmas -/

/-- A successful payment-status update commits exactly the status change and
returns the row with the new status. -/
lemma update_payment_status_spec {db : DB} {pid : Nat} {st : PaymentStatus}
    {p' : Payment} {db' : DB}
    (h : PaymentsRepository.update_payment_status db pid st = .ok (p', db')) :
    db' = setPaymentStatus db pid st ∧ p'.id = pid ∧ p'.status = st := by
  unfold PaymentsRepository.update_payment_status at h
  cases hg : PaymentsRepository.get_payment_by_id db pid <;> rw [hg] at h
  · exact Except.noConfusion h
  · rename_i q
    have hq : q.id = pid := by
      have := List.find?_some hg
      simpa using this
    simp only [Except.ok.injEq, Prod.mk.injEq] at h
    obtain ⟨hp, hdb⟩ := h
    refine ⟨hdb.symm, ?_, ?_⟩
    · rw [← hp]; exact hq
    · rw [← hp]

/-- A successful order-status update commits exactly the status change and
returns the row with the new status. -/
lemma update_order_status_spec {db : DB} {oid : Nat} {st : OrderStatus}
    {o' : Order} {db' : DB}
    (h : OrderRepository.update_order_status db oid st = .ok (o', db')) :
    db' = setOrderStatus db oid st ∧ o'.id = oid ∧ o'.status = st := by
  unfold OrderRepository.update_order_status at h
  cases hg : OrderRepository.get_order_by_id db oid <;> rw [hg] at h
  · exact Except.noConfusion h
  · rename_i q
    have hq : q.id = oid := by
      unfold OrderRepository.get_order_by_id at hg
      cases hf : db.orders.find? (fun o => o.id = oid) <;> rw [hf] at hg
      · exact Except.noConfusion hg
      · have := List.find?_some hf
        simp only [Except.ok.injEq] at hg
        rw [← hg]
        simpa using this
    simp only [Except.ok.injEq, Prod.mk.injEq] at h
    obtain ⟨ho, hdb⟩ := h
    refine ⟨hdb.symm, ?_, ?_⟩
    · rw [← ho]; exact hq
    · rw [← ho]

/-- Setting a payment status leaves the orders table untouched. -/
lemma setPaymentStatus_orders (db : DB) (pid : Nat) (st : PaymentStatus) :
    (setPaymentStatus db pid st).orders = db.orders := rfl

/-- Setting an order status leaves the payments table untouched. -/
lemma setOrderStatus_payments (db : DB) (oid : Nat) (st : OrderStatus) :
    (setOrderStatus db oid st).payments = db.payments := rfl

/-- A payment that is in the table can always be status-updated, and the
update returns the row with the new status. -/
lemma update_payment_status_run {db : DB} {p : Payment} (hmem : p ∈ db.payments)
    (st : PaymentStatus) :
    ∃ p', PaymentsRepository.update_payment_status db p.id st =
        .ok (p', setPaymentStatus db p.id st) ∧ p'.id = p.id ∧ p'.status = st := by
  have hsome : (db.payments.find? (fun q => q.id = p.id)).isSome := by
    rw [List.find?_isSome]
    exact ⟨p, hmem, by simp⟩
  obtain ⟨q, hq⟩ := Option.isSome_iff_exists.mp hsome
  have hqid : q.id = p.id := by
    have := List.find?_some hq
    simpa using this
  refine ⟨{ q with status := st }, ?_, hqid, rfl⟩
  unfold PaymentsRepository.update_payment_status PaymentsRepository.get_payment_by_id
  rw [hq]

/-! ### complete_payment branch lemmas -/

/-- complete_payment on a payment already SUCCESSFUL: returned unchanged. -/
lemma complete_payment_already_successful {P : PaymentProvider} {db : DB}
    {extId : String} {p : Payment}
    (hfind : PaymentsRepository.get_payment_by_external_id db extId = some p)
    (hst : p.status = PaymentStatus.successful) :
    PaymentService.complete_payment P db extId = .ok (p, db) := by
  unfold PaymentService.complete_payment
  simp only [hfind]
  rw [if_pos hst]

/-- A PENDING or PROCESSING payment never trips the
"Payment cannot be completed" guard. -/
lemma not_blocked_of_pending_or_processing {p : Payment}
    (hpp : p.status = PaymentStatus.pending ∨ p.status = PaymentStatus.processing) :
    ¬(p.status ≠ PaymentStatus.pending ∧ p.status ≠ PaymentStatus.processing) := by
  rcases hpp with h | h <;> simp [h]

/-- A PENDING or PROCESSING payment is not SUCCESSFUL. -/
lemma not_successful_of_pending_or_processing {p : Payment}
    (hpp : p.status = PaymentStatus.pending ∨ p.status = PaymentStatus.processing) :
    ¬ p.status = PaymentStatus.successful := by
  rcases hpp with h | h <;> simp [h]

/-- complete_payment, live intent "processing": exactly the payment-status
update to PROCESSING runs. -/
lemma complete_payment_processing_eq {P : PaymentProvider} {db : DB}
    {extId : String} {p : Payment}
    (hfind : PaymentsRepository.get_payment_by_external_id db extId = some p)
    (hpp : p.status = PaymentStatus.pending ∨ p.status = PaymentStatus.processing)
    (hs : P.intentStatus extId = "processing") :
    PaymentService.complete_payment P db extId =
      PaymentsRepository.update_payment_status db p.id .processing := by
  unfold PaymentService.complete_payment
  simp only [hfind]
  rw [if_neg (not_successful_of_pending_or_processing hpp),
      if_neg (not_blocked_of_pending_or_processing hpp), if_pos hs]

/-- complete_payment, live intent "succeeded": the order update to PAID runs
first, then the payment update to SUCCESSFUL on the committed state. -/
lemma complete_payment_succeeded_eq {P : PaymentProvider} {db : DB}
    {extId : String} {p : Payment}
    (hfind : PaymentsRepository.get_payment_by_external_id db extId = some p)
    (hpp : p.status = PaymentStatus.pending ∨ p.status = PaymentStatus.processing)
    (hs : P.intentStatus extId = "succeeded") :
    PaymentService.complete_payment P db extId =
      (match OrderRepository.update_order_status db p.orderId .paid with
       | .error e => .error e
       | .ok (_, db₁) =>
         PaymentsRepository.update_payment_status db₁ p.id .successful) := by
  unfold PaymentService.complete_payment
  simp only [hfind, hs]
  rw [if_neg (not_successful_of_pending_or_processing hpp),
      if_neg (not_blocked_of_pending_or_processing hpp)]
  simp

/-- complete_payment, live intent requires_payment_method or
requires_confirmation: exactly the payment-status update to PENDING runs. -/
lemma complete_payment_requires_eq {P : PaymentProvider} {db : DB}
    {extId : String} {p : Payment}
    (hfind : PaymentsRepository.get_payment_by_external_id db extId = some p)
    (hpp : p.status = PaymentStatus.pending ∨ p.status = PaymentStatus.processing)
    (hs : P.intentStatus extId = "requires_payment_method" ∨
          P.intentStatus extId = "requires_confirmation") :
    PaymentService.complete_payment P db extId =
      PaymentsRepository.update_payment_status db p.id .pending := by
  unfold PaymentService.complete_payment
  simp only [hfind]
  rw [if_neg (not_successful_of_pending_or_processing hpp),
      if_neg (not_blocked_of_pending_or_processing hpp)]
  rcases hs with hs | hs <;>
    rw [if_neg (by rw [hs]; decide), if_neg (by rw [hs]; decide), if_pos (by rw [hs]; simp)]

/-- complete_payment, any other live intent status: exactly the
payment-status update to CANCELED runs. -/
lemma complete_payment_other_eq {P : PaymentProvider} {db : DB}
    {extId : String} {p : Payment}
    (hfind : PaymentsRepository.get_payment_by_external_id db extId = some p)
    (hpp : p.status = PaymentStatus.pending ∨ p.status = PaymentStatus.processing)
    (h1 : ¬ P.intentStatus extId = "processing")
    (h2 : ¬ P.intentStatus extId = "succeeded")
    (h3 : ¬ P.intentStatus extId = "requires_payment_method")
    (h4 : ¬ P.intentStatus extId = "requires_confirmation") :
    PaymentService.complete_payment P db extId =
      PaymentsRepository.update_payment_status db p.id .canceled := by
  unfold PaymentService.complete_payment
  simp only [hfind]
  rw [if_neg (not_successful_of_pending_or_processing hpp),
      if_neg (not_blocked_of_pending_or_processing hpp),
      if_neg h1, if_neg h2, if_neg (by simp [h3, h4])]

/-- Full result of the "processing" branch. -/
lemma complete_payment_processing_run {P : PaymentProvider} {db : DB}
    {extId : String} {p : Payment}
    (hfind : PaymentsRepository.get_payment_by_external_id db extId = some p)
    (hpp : p.status = PaymentStatus.pending ∨ p.status = PaymentStatus.processing)
    (hs : P.intentStatus extId = "processing") :
    ∃ p', PaymentService.complete_payment P db extId =
        .ok (p', setPaymentStatus db p.id .processing) ∧
      p'.id = p.id ∧ p'.status = PaymentStatus.processing := by
  rw [complete_payment_processing_eq hfind hpp hs]
  exact update_payment_status_run (List.mem_of_find?_eq_some hfind) _

/-- Full result of the "succeeded" branch when the order row exists: the
order is set PAID and the payment SUCCESSFUL. -/
lemma complete_payment_succeeded_run {P : PaymentProvider} {db : DB}
    {extId : String} {p : Payment} {o : Order}
    (hfind : PaymentsRepository.get_payment_by_external_id db extId = some p)
    (hpp : p.status = PaymentStatus.pending ∨ p.status = PaymentStatus.processing)
    (hs : P.intentStatus extId = "succeeded")
    (ho : OrderRepository.get_order_by_id db p.orderId = .ok o) :
    ∃ p', PaymentService.complete_payment P db extId =
        .ok (p', setPaymentStatus (setOrderStatus db p.orderId .paid) p.id .successful) ∧
      p'.id = p.id ∧ p'.status = PaymentStatus.successful := by
  rw [complete_payment_succeeded_eq hfind hpp hs]
  have hupd : OrderRepository.update_order_status db p.orderId .paid =
      .ok ({ o with status := .paid }, setOrderStatus db p.orderId .paid) := by
    unfold OrderRepository.update_order_status
    rw [ho]
  rw [hupd]
  have hmem : p ∈ (setOrderStatus db p.orderId OrderStatus.paid).payments :=
    List.mem_of_find?_eq_some hfind
  exact update_payment_status_run hmem _

/-- Full result of the requires_payment_method / requires_confirmation
branch. -/
lemma complete_payment_requires_run {P : PaymentProvider} {db : DB}
    {extId : String} {p : Payment}
    (hfind : PaymentsRepository.get_payment_by_external_id db extId = some p)
    (hpp : p.status = PaymentStatus.pending ∨ p.status = PaymentStatus.processing)
    (hs : P.intentStatus extId = "requires_payment_method" ∨
          P.intentStatus extId = "requires_confirmation") :
    ∃ p', PaymentService.complete_payment P db extId =
        .ok (p', setPaymentStatus db p.id .pending) ∧
      p'.id = p.id ∧ p'.status = PaymentStatus.pending := by
  rw [complete_payment_requires_eq hfind hpp hs]
  exact update_payment_status_run (List.mem_of_find?_eq_some hfind) _

/-- Full result of the catch-all branch. -/
lemma complete_payment_other_run {P : PaymentProvider} {db : DB}
    {extId : String} {p : Payment}
    (hfind : PaymentsRepository.get_payment_by_external_id db extId = some p)
    (hpp : p.status = PaymentStatus.pending ∨ p.status = PaymentStatus.processing)
    (h1 : ¬ P.intentStatus extId = "processing")
    (h2 : ¬ P.intentStatus extId = "succeeded")
    (h3 : ¬ P.intentStatus extId = "requires_payment_method")
    (h4 : ¬ P.intentStatus extId = "requires_confirmation") :
    ∃ p', PaymentService.complete_payment P db extId =
        .ok (p', setPaymentStatus db p.id .canceled) ∧
      p'.id = p.id ∧ p'.status = PaymentStatus.canceled := by
  rw [complete_payment_other_eq hfind hpp h1 h2 h3 h4]
  exact update_payment_status_run (List.mem_of_find?_eq_some hfind) _

/-- Whatever complete_payment does, the only write it ever performs on the
orders table is setting one order's status to PAID. -/
lemma complete_payment_orders_shape {P : PaymentProvider} {db : DB}
    {extId : String} {p : Payment} {db' : DB}
    (h : PaymentService.complete_payment P db extId = .ok (p, db')) :
    db'.orders = db.orders ∨
      ∃ oid, db'.orders = (setOrderStatus db oid OrderStatus.paid).orders := by
  unfold PaymentService.complete_payment at h
  cases hfind : PaymentsRepository.get_payment_by_external_id db extId <;>
    simp only [hfind] at h
  · exact Except.noConfusion h
  · rename_i q
    by_cases h1 : q.status = PaymentStatus.successful
    · rw [if_pos h1] at h
      simp only [Except.ok.injEq, Prod.mk.injEq] at h
      rw [← h.2]
      exact Or.inl rfl
    · rw [if_neg h1] at h
      by_cases h2 : q.status ≠ PaymentStatus.pending ∧ q.status ≠ PaymentStatus.processing
      · rw [if_pos h2] at h
        exact Except.noConfusion h
      · rw [if_neg h2] at h
        by_cases h3 : P.intentStatus extId = "processing"
        · rw [if_pos h3] at h
          rw [(update_payment_status_spec h).1]
          exact Or.inl rfl
        · rw [if_neg h3] at h
          by_cases h4 : P.intentStatus extId = "succeeded"
          · rw [if_pos h4] at h
            cases hupd : OrderRepository.update_order_status db q.orderId .paid <;>
              rw [hupd] at h
            · exact Except.noConfusion h
            · rename_i val
              obtain ⟨o', db₁⟩ := val
              refine Or.inr ⟨q.orderId, ?_⟩
              rw [(update_payment_status_spec h).1, setPaymentStatus_orders,
                  (update_order_status_spec hupd).1]
          · rw [if_neg h4] at h
            by_cases h5 : P.intentStatus extId = "requires_payment_method" ∨
                P.intentStatus extId = "requires_confirmation"
            · rw [if_pos h5] at h
              rw [(update_payment_status_spec h).1]
              exact Or.inl rfl
            · rw [if_neg h5] at h
              rw [(update_payment_status_spec h).1]
              exact Or.inl rfl

/-- Re-setting a PAID order to PAID is the identity on the row. -/
lemma set_paid_of_paid {o : Order} (h : o.status = OrderStatus.paid) :
    { o with status := OrderStatus.paid } = o := by
  cases o with
  | mk i u st t it =>
    cases h
    rfl

/-! ### create_order lemmas -/

/-- The eligibility loop equals a pair of filters: the valid items are those
not excluded, the excluded movie ids are the movie ids of the excluded
items, both in cart order. -/
lemma split_cart_items_eq (db : DB) (userId : Nat) (l : List CartItem) :
    OrdersService.split_cart_items db userId l =
      (l.filter (fun i => !(excludedItem db userId i)),
       (l.filter (excludedItem db userId)).map (fun i => i.movieId)) := by
  induction l with
  | nil => rfl
  | cons a t ih =>
    unfold OrdersService.split_cart_items
    rw [ih]
    cases h1 : OrderRepository.check_movie_purchased db userId a.movieId with
    | true => simp [excludedItem, List.filter_cons, h1]
    | false =>
      cases h2 : OrderRepository.check_pending_order db userId a.movieId with
      | true => simp [excludedItem, List.filter_cons, h1, h2]
      | false => simp [excludedItem, List.filter_cons, h1, h2]

/-- The built order items carry exactly the catalog prices of the cart
items. -/
lemma buildOrderItems_map_price (catalog : List Movie) (n : Nat) (l : List CartItem) :
    (buildOrderItems catalog n l).map (fun it => it.priceAtOrder) =
      l.map (fun i => priceOf catalog i.movieId) := by
  induction l generalizing n with
  | nil => rfl
  | cons a t ih => simp [buildOrderItems, ih]

/-- The built order items carry exactly the movie ids of the cart items. -/
lemma buildOrderItems_map_movieId (catalog : List Movie) (n : Nat) (l : List CartItem) :
    (buildOrderItems catalog n l).map (fun it => it.movieId) =
      l.map (fun i => i.movieId) := by
  induction l generalizing n with
  | nil => rfl
  | cons a t ih => simp [buildOrderItems, ih]

/-- A status write never changes id, total amount or items of any order. -/
lemma map_orderCore_setOrderStatus (l : List Order) (oid : Nat) (st : OrderStatus) :
    (l.map (fun o => if o.id = oid then { o with status := st } else o)).map orderCore =
      l.map orderCore := by
  induction l with
  | nil => rfl
  | cons a t ih =>
    simp only [List.map_cons]
    rw [ih]
    congr 1
    by_cases h : a.id = oid
    · rw [if_pos h]
      rfl
    · rw [if_neg h]

/-- After deleting every cart of a user, no cart of that user is found. -/
lemma find?_carts_after_delete (l : List Cart) (uid : Nat) :
    (l.filter (fun c => c.userId ≠ uid)).find? (fun c => c.userId = uid) = none := by
  rw [List.find?_eq_none]
  intro c hc
  have hmem := List.mem_filter.mp hc
  have hne : c.userId ≠ uid := by simpa using hmem.2
  simpa using hne

/-- Characterization of a successful first-stage run of create_order: the
order is built from the non-excluded cart items with the catalog prices
frozen in and committed by appending it to the orders table. -/
lemma create_order_stage1_ok_shape {db : DB} {userId : Nat} {cart : Cart}
    (hcart : CartRepository.get_by_user_id db userId = .ok cart)
    {o : Order} {excl : List Nat} {db₁ : DB}
    (h : OrdersService.create_order_stage1 db userId = .ok (o, excl, db₁)) :
    o = { id := db.nextOrderId, userId := userId, status := .pending,
          totalAmount := ((cart.items.filter (fun i => !(excludedItem db userId i))).map
            (fun i => priceOf db.catalog i.movieId)).sum,
          items := buildOrderItems db.catalog db.nextOrderItemId
            (cart.items.filter (fun i => !(excludedItem db userId i))) } ∧
    excl = (cart.items.filter (excludedItem db userId)).map (fun i => i.movieId) ∧
    db₁ = { db with
             orders := db.orders ++ [o]
             nextOrderId := db.nextOrderId + 1
             nextOrderItemId := db.nextOrderItemId + o.items.length } := by
  unfold OrdersService.create_order_stage1 at h
  simp only [hcart, split_cart_items_eq, OrderRepository.create_order] at h
  by_cases hE : (cart.items.filter (fun i => !(excludedItem db userId i))).isEmpty
  · rw [if_pos hE] at h
    exact Except.noConfusion h
  · rw [if_neg hE] at h
    simp only [Except.ok.injEq, Prod.mk.injEq] at h
    obtain ⟨h1, h2, h3⟩ := h
    exact ⟨h1.symm, h2.symm, by rw [← h3, ← h1]⟩

/-- Full characterization of a successful create_order run: additionally the
user's cart rows are gone from the final committed state. -/
lemma create_order_ok_shape {db : DB} {userId : Nat} {cart : Cart}
    (hcart : CartRepository.get_by_user_id db userId = .ok cart)
    {o : Order} {excl : List Nat} {db' : DB}
    (h : OrdersService.create_order db userId = .ok (o, excl, db')) :
    o = { id := db.nextOrderId, userId := userId, status := .pending,
          totalAmount := ((cart.items.filter (fun i => !(excludedItem db userId i))).map
            (fun i => priceOf db.catalog i.movieId)).sum,
          items := buildOrderItems db.catalog db.nextOrderItemId
            (cart.items.filter (fun i => !(excludedItem db userId i))) } ∧
    excl = (cart.items.filter (excludedItem db userId)).map (fun i => i.movieId) ∧
    db' = { db with
             carts := db.carts.filter (fun c => c.userId ≠ userId)
             orders := db.orders ++ [o]
             nextOrderId := db.nextOrderId + 1
             nextOrderItemId := db.nextOrderItemId + o.items.length } := by
  have hfindc : db.carts.find? (fun c => c.userId = userId) = some cart := by
    unfold CartRepository.get_by_user_id at hcart
    cases hf : db.carts.find? (fun c => c.userId = userId) <;> simp only [hf] at hcart
    · exact Except.noConfusion hcart
    · simp only [Except.ok.injEq] at hcart
      rw [hcart]
  unfold OrdersService.create_order at h
  cases hs1 : OrdersService.create_order_stage1 db userId <;> simp only [hs1] at h
  · exact Except.noConfusion h
  · rename_i r1
    obtain ⟨o₁, excl₁, db₁⟩ := r1
    dsimp only at h
    obtain ⟨ho₁, hexcl₁, hdb₁⟩ := create_order_stage1_ok_shape hcart hs1
    have hcarts₁ : db₁.carts = db.carts := by rw [hdb₁]
    cases hdel : CartRepository.delete db₁ userId <;> simp only [hdel] at h
    · exact Except.noConfusion h
    · rename_i db₂
      have hdel' : db₂ = { db₁ with carts := db₁.carts.filter (fun c => c.userId ≠ userId) } := by
        unfold CartRepository.delete CartRepository.get_by_user_id at hdel
        rw [hcarts₁, hfindc] at hdel
        simp only [Except.ok.injEq] at hdel
        rw [← hdel, hcarts₁]
      simp only [Except.ok.injEq, Prod.mk.injEq] at h
      obtain ⟨h1, h2, h3⟩ := h
      refine ⟨h1 ▸ ho₁, h2 ▸ hexcl₁, ?_⟩
      rw [← h3, hdel', hdb₁, ← h1]

/-! ### Claim theorems -/

/-- Claim C1, counterexample: in a state whose order 1 is CANCELED while its
payment is still PENDING, complete_payment on a live "succeeded" intent
moves the order out of its terminal CANCELED state to PAID — refuting the
claim that an order in a terminal state is never transitioned again. -/
theorem C1_counterexample :
    orderStatusOf fxDbCanceled 1 = some OrderStatus.canceled ∧
    paymentStatusOf fxDbCanceled 1 = some PaymentStatus.pending ∧
    (PaymentService.complete_payment fxProviderSucceeded fxDbCanceled "pi_0").toOption.map
        (fun r => orderStatusOf r.2 1) = some (some OrderStatus.paid) := by
  decide

/-- Claim C1, amended: (1) complete_payment either leaves the orders table
unchanged or performs exactly one write, which sets some order's status to
PAID; consequently no order ever leaves the PAID state through it (a PAID
row is preserved verbatim), but a CANCELED order whose payment succeeds is
moved to PAID, because complete_payment never consults the order's current
status.  (2) cancel_order succeeds only when the stored order with the
given id is PENDING, and its only write sets that order id's status to
CANCELED.  (3) complete_order succeeds only when the stored order is
PENDING, and its only write sets that order id's status to PAID on payment
success and CANCELED otherwise.  So the transitions these two operations
perform start from PENDING, and the only operation that writes an order
not currently PENDING is complete_payment's set-to-PAID. -/
theorem C1_terminal_transitions_amended :
    (∀ (P : PaymentProvider) (db : DB) (extId : String) (p : Payment) (db' : DB),
      PaymentService.complete_payment P db extId = .ok (p, db') →
      (db'.orders = db.orders ∨
        ∃ oid, db'.orders = (setOrderStatus db oid OrderStatus.paid).orders) ∧
      ∀ o, o ∈ db.orders → o.status = OrderStatus.paid → o ∈ db'.orders) ∧
    (∀ (db : DB) (oid uid : Nat) (o' : Order) (db' : DB),
      OrdersService.cancel_order db oid uid = .ok (o', db') →
      ∃ o, OrderRepository.get_order_by_id db oid = .ok o ∧
        o.status = OrderStatus.pending ∧
        o'.status = OrderStatus.canceled ∧
        db' = setOrderStatus db oid OrderStatus.canceled) ∧
    (∀ (db : DB) (oid : Nat) (ps : Bool) (o' : Order) (db' : DB),
      OrdersService.complete_order db oid ps = .ok (o', db') →
      ∃ o, OrderRepository.get_order_by_id db oid = .ok o ∧
        o.status = OrderStatus.pending ∧
        o'.status = (if ps then OrderStatus.paid else OrderStatus.canceled) ∧
        db' = setOrderStatus db oid (if ps then OrderStatus.paid else OrderStatus.canceled)) := by
  refine ⟨?_, ?_, ?_⟩
  · intro P db extId p db' h
    have hshape := complete_payment_orders_shape h
    refine ⟨hshape, ?_⟩
    intro o hmem hpaid
    rcases hshape with heq | ⟨oid, heq⟩
    · rw [heq]
      exact hmem
    · rw [heq]
      show o ∈ db.orders.map
        (fun x => if x.id = oid then { x with status := OrderStatus.paid } else x)
      have hfix : (if o.id = oid then { o with status := OrderStatus.paid } else o) = o := by
        by_cases hc : o.id = oid
        · rw [if_pos hc]
          exact set_paid_of_paid hpaid
        · rw [if_neg hc]
      rw [← hfix]
      exact List.mem_map_of_mem _ hmem
  · intro db oid uid o' db' h
    unfold OrdersService.cancel_order at h
    cases hg : OrderRepository.get_order_by_id db oid with
    | error e =>
      cases e <;> simp only [hg] at h <;> exact Except.noConfusion h
    | ok order =>
      simp only [hg] at h
      split at h
      · exact Except.noConfusion h
      · split at h
        · exact Except.noConfusion h
        · rename_i hstat
          obtain ⟨hdb', _, hst'⟩ := update_order_status_spec h
          exact ⟨order, rfl, not_not.mp hstat, hst', hdb'⟩
  · intro db oid ps o' db' h
    unfold OrdersService.complete_order at h
    cases hg : OrderRepository.get_order_by_id db oid with
    | error e =>
      cases e <;> simp only [hg] at h <;> exact Except.noConfusion h
    | ok order =>
      simp only [hg] at h
      split at h
      · exact Except.noConfusion h
      · rename_i hstat
        obtain ⟨hdb', _, hst'⟩ := update_order_status_spec h
        exact ⟨order, rfl, not_not.mp hstat, hst', hdb'⟩

/-- Claim C1, witness for the amended theorem: the complete_payment conjunct
at the concrete counterexample state, and the cancel_order and
complete_order conjuncts at a concrete PENDING order. -/
theorem C1_witness :
    ((fxDbCanceledPaidAfter.orders = fxDbCanceled.orders ∨
       ∃ oid, fxDbCanceledPaidAfter.orders =
         (setOrderStatus fxDbCanceled oid OrderStatus.paid).orders) ∧
     ∀ o, o ∈ fxDbCanceled.orders → o.status = OrderStatus.paid →
       o ∈ fxDbCanceledPaidAfter.orders) ∧
    (∃ o, OrderRepository.get_order_by_id fxDbPendingNoPay 1 = .ok o ∧
      o.status = OrderStatus.pending ∧
      fxOrderCanceled.status = OrderStatus.canceled ∧
      fxDbCanceledNoPay = setOrderStatus fxDbPendingNoPay 1 OrderStatus.canceled) ∧
    (∃ o, OrderRepository.get_order_by_id fxDbPendingNoPay 1 = .ok o ∧
      o.status = OrderStatus.pending ∧
      fxOrderPaid.status = (if true then OrderStatus.paid else OrderStatus.canceled) ∧
      fxDbPaidNoPay = setOrderStatus fxDbPendingNoPay 1
        (if true then OrderStatus.paid else OrderStatus.canceled)) :=
  ⟨C1_terminal_transitions_amended.1 fxProviderSucceeded fxDbCanceled "pi_0"
     fxPaymentSuccessful fxDbCanceledPaidAfter (by decide),
   C1_terminal_transitions_amended.2.1 fxDbPendingNoPay 1 1
     fxOrderCanceled fxDbCanceledNoPay (by decide),
   C1_terminal_transitions_amended.2.2 fxDbPendingNoPay 1 true
     fxOrderPaid fxDbPaidNoPay (by decide)⟩

/-- Claim C3: for an order whose only payment is already REFUNDED,
refund_payment fails with 404 "No successful payment found for this order"
(the SUCCESSFUL-filtered lookup finds nothing), not with the specified 400
PaymentCannotBeRefunded; the state is untouched since the call errors. -/
theorem C3_refund_after_refund_is_404 :
    paymentStatusOf fxDbRefunded 1 = some PaymentStatus.refunded ∧
    PaymentService.refund_payment fxProviderSucceeded fxDbRefunded 1 1 none =
      .error (.http 404 "No successful payment found for this order") ∧
    Err.http 404 "No successful payment found for this order" ≠
      Err.http 400 "Payment cannot be refunded" := by
  decide

/-- Claim C4: for a user with no cart, create_order raises CartNotFoundError
(which no caller catches), not the specified 400 "Cart is empty." — the
in-code empty-cart guard is unreachable because the repository raises
instead of returning a falsy cart. The call errors before any order is
built, so no Order row is created. -/
theorem C4_create_order_no_cart_raises :
    fxDbNoCart.carts.find? (fun c => c.userId = 1) = none ∧
    OrdersService.create_order fxDbNoCart 1 = .error (.cartNotFound 1) ∧
    (Err.cartNotFound 1 ≠ Err.http 400 "Cart is empty.") := by
  decide

/-- Claim C6: complete_payment is idempotent once a payment is SUCCESSFUL —
whenever the payment found for the external id is already SUCCESSFUL, the
call returns that payment and the completely unchanged state, with no
error. -/
theorem C6_complete_payment_idempotent :
    ∀ (P : PaymentProvider) (db : DB) (extId : String) (p : Payment),
      PaymentsRepository.get_payment_by_external_id db extId = some p →
      p.status = PaymentStatus.successful →
      PaymentService.complete_payment P db extId = .ok (p, db) := by
  intro P db extId p hfind hst
  exact complete_payment_already_successful hfind hst

/-- Claim C6, witness: the state after a successful completion, where the
payment is SUCCESSFUL; completing again returns it with the state
untouched. -/
theorem C6_witness :
    PaymentService.complete_payment fxProviderSucceeded fxDbSuccess "pi_0" =
      .ok (fxPaymentSuccessful, fxDbSuccess) :=
  C6_complete_payment_idempotent fxProviderSucceeded fxDbSuccess "pi_0"
    fxPaymentSuccessful (by decide) (by decide)

/-- Claim C5, counterexample: with the Stripe provider model, which creates a
fresh payment intent (and thus a fresh external id) on every call, retrying
initiate_payment for the same PENDING order creates a second Payment row
for that order — the existing-external-id check never matches the fresh
id, so the claimed retry idempotence does not hold end to end. -/
theorem C5_counterexample :
    PaymentService.initiate_payment fxProviderSucceeded fxDbPendingNoPay 0 1 1 =
      .ok ("cs_pi_0", fxDbRetry1, 1) ∧
    PaymentService.initiate_payment fxProviderSucceeded fxDbRetry1 1 1 1 =
      .ok ("cs_pi_1", fxDbRetry2, 2) ∧
    fxDbPendingNoPay.payments.length = 0 ∧
    fxDbRetry1.payments.length = 1 ∧
    fxDbRetry2.payments.length = 2 ∧
    fxDbRetry2.payments.map (fun p => p.orderId) = [1, 1] := by
  decide

/-- Claim C5, amended: the service-level guard alone holds — whenever the
external id retrieved from the provider already has a Payment row,
initiate_payment returns the redirect token with the state completely
unchanged, creating no duplicate; retry only stays duplicate-free when the
provider returns an already-stored id, which the Stripe adapter does not. -/
theorem C5_initiate_idempotent_on_existing_id :
    ∀ (P : PaymentProvider) (db : DB) (prov orderId userId : Nat) (o : Order) (q : Payment),
      OrderRepository.get_order_by_id db orderId = .ok o →
      o.userId = userId →
      o.status = OrderStatus.pending →
      PaymentsRepository.get_payment_by_external_id db
        (P.initiate orderId o.totalAmount prov).2.1 = some q →
      PaymentService.initiate_payment P db prov orderId userId =
        .ok ((P.initiate orderId o.totalAmount prov).1, db,
             (P.initiate orderId o.totalAmount prov).2.2) := by
  intro P db prov orderId userId o q hget huid hstat hfind
  unfold PaymentService.initiate_payment
  rcases hP : P.initiate orderId o.totalAmount prov with ⟨url, eid, pr⟩
  rw [hP] at hfind
  simp only [hget, hP]
  rw [if_neg (by simp [huid]), if_neg (by simp [hstat])]
  simp only [hfind]

/-- Claim C5, witness for the amended theorem: a provider that replays the
stored intent id pi_0 against a state already holding that Payment row. -/
theorem C5_witness :
    PaymentService.initiate_payment fxProviderConst fxDbPay 0 1 1 =
      .ok ("cs_pi_0", fxDbPay, 0) :=
  C5_initiate_idempotent_on_existing_id fxProviderConst fxDbPay 0 1 1
    fxOrderPending fxPaymentPending (by decide) (by decide) (by decide) (by decide)

/-- Claim C9: for a payment found in PENDING or PROCESSING, complete_payment
maps the live intent status exactly as specified — "processing" sets the
payment PROCESSING with the orders table untouched; "succeeded" sets the
order PAID and the payment SUCCESSFUL; "requires_payment_method" or
"requires_confirmation" sets the payment back to PENDING; anything else
sets it CANCELED — and every branch commits the new status and returns the
updated payment row. -/
theorem C9_complete_payment_status_mapping :
    ∀ (P : PaymentProvider) (db : DB) (extId : String) (p : Payment),
      PaymentsRepository.get_payment_by_external_id db extId = some p →
      (p.status = PaymentStatus.pending ∨ p.status = PaymentStatus.processing) →
      ((P.intentStatus extId = "processing" →
         ∃ p', PaymentService.complete_payment P db extId =
             .ok (p', setPaymentStatus db p.id .processing) ∧
           p'.id = p.id ∧ p'.status = PaymentStatus.processing ∧
           (setPaymentStatus db p.id PaymentStatus.processing).orders = db.orders) ∧
       (∀ o, P.intentStatus extId = "succeeded" →
         OrderRepository.get_order_by_id db p.orderId = .ok o →
         ∃ p', PaymentService.complete_payment P db extId =
             .ok (p', setPaymentStatus (setOrderStatus db p.orderId .paid) p.id .successful) ∧
           p'.id = p.id ∧ p'.status = PaymentStatus.successful) ∧
       ((P.intentStatus extId = "requires_payment_method" ∨
         P.intentStatus extId = "requires_confirmation") →
         ∃ p', PaymentService.complete_payment P db extId =
             .ok (p', setPaymentStatus db p.id .pending) ∧
           p'.id = p.id ∧ p'.status = PaymentStatus.pending) ∧
       (¬ P.intentStatus extId = "processing" →
        ¬ P.intentStatus extId = "succeeded" →
        ¬ P.intentStatus extId = "requires_payment_method" →
        ¬ P.intentStatus extId = "requires_confirmation" →
         ∃ p', PaymentService.complete_payment P db extId =
             .ok (p', setPaymentStatus db p.id .canceled) ∧
           p'.id = p.id ∧ p'.status = PaymentStatus.canceled)) := by
  intro P db extId p hfind hpp
  refine ⟨?_, ?_, ?_, ?_⟩
  · intro hs
    obtain ⟨p', h1, h2, h3⟩ := complete_payment_processing_run hfind hpp hs
    exact ⟨p', h1, h2, h3, rfl⟩
  · intro o hs ho
    exact complete_payment_succeeded_run hfind hpp hs ho
  · intro hs
    exact complete_payment_requires_run hfind hpp hs
  · intro h1 h2 h3 h4
    exact complete_payment_other_run hfind hpp h1 h2 h3 h4

/-- Claim C9, witness: all four branches exercised on the concrete pending
payment pi_0 of fxDbPay under four providers reporting the four kinds of
live status. -/
theorem C9_witness :
    (∃ p', PaymentService.complete_payment fxProviderProcessing fxDbPay "pi_0" =
        .ok (p', setPaymentStatus fxDbPay 1 .processing) ∧
      p'.id = 1 ∧ p'.status = PaymentStatus.processing ∧
      (setPaymentStatus fxDbPay 1 PaymentStatus.processing).orders = fxDbPay.orders) ∧
    (∃ p', PaymentService.complete_payment fxProviderSucceeded fxDbPay "pi_0" =
        .ok (p', setPaymentStatus (setOrderStatus fxDbPay 1 .paid) 1 .successful) ∧
      p'.id = 1 ∧ p'.status = PaymentStatus.successful) ∧
    (∃ p', PaymentService.complete_payment fxProviderRequires fxDbPay "pi_0" =
        .ok (p', setPaymentStatus fxDbPay 1 .pending) ∧
      p'.id = 1 ∧ p'.status = PaymentStatus.pending) ∧
    (∃ p', PaymentService.complete_payment fxProviderOther fxDbPay "pi_0" =
        .ok (p', setPaymentStatus fxDbPay 1 .canceled) ∧
      p'.id = 1 ∧ p'.status = PaymentStatus.canceled) :=
  ⟨(C9_complete_payment_status_mapping fxProviderProcessing fxDbPay "pi_0"
      fxPaymentPending (by decide) (Or.inl rfl)).1 rfl,
   (C9_complete_payment_status_mapping fxProviderSucceeded fxDbPay "pi_0"
      fxPaymentPending (by decide) (Or.inl rfl)).2.1 fxOrderPending rfl (by decide),
   (C9_complete_payment_status_mapping fxProviderRequires fxDbPay "pi_0"
      fxPaymentPending (by decide) (Or.inl rfl)).2.2.1 (Or.inl rfl),
   (C9_complete_payment_status_mapping fxProviderOther fxDbPay "pi_0"
      fxPaymentPending (by decide) (Or.inl rfl)).2.2.2
     (by decide) (by decide) (by decide) (by decide)⟩

/-- Claim C10: the webhook handler's resulting database state is independent
of which recognized event type was delivered — both delegate to
complete_payment on the intent id — and in particular a
payment_intent.payment_failed event whose live intent meanwhile reports
"succeeded" marks the payment SUCCESSFUL and the order PAID. -/
theorem C10_webhook_event_type_independent :
    (∀ (P : PaymentProvider) (db : DB) (i : String),
       (handle_payment_webhook P db "payment_intent.succeeded" i).map (fun r => r.2) =
       (handle_payment_webhook P db "payment_intent.payment_failed" i).map (fun r => r.2)) ∧
    (∀ (P : PaymentProvider) (db : DB) (i : String) (p : Payment) (o : Order),
       PaymentsRepository.get_payment_by_external_id db i = some p →
       (p.status = PaymentStatus.pending ∨ p.status = PaymentStatus.processing) →
       P.intentStatus i = "succeeded" →
       OrderRepository.get_order_by_id db p.orderId = .ok o →
       ∃ p', handle_payment_webhook P db "payment_intent.payment_failed" i =
           .ok ("failed", setPaymentStatus (setOrderStatus db p.orderId .paid) p.id .successful) ∧
         PaymentService.complete_payment P db i =
           .ok (p', setPaymentStatus (setOrderStatus db p.orderId .paid) p.id .successful) ∧
         p'.status = PaymentStatus.successful) := by
  constructor
  · intro P db i
    have h1 : handle_payment_webhook P db "payment_intent.succeeded" i =
        (PaymentService.complete_payment P db i).map (fun r => ("success", r.2)) := by
      unfold handle_payment_webhook
      rw [if_pos rfl]
    have h2 : handle_payment_webhook P db "payment_intent.payment_failed" i =
        (PaymentService.complete_payment P db i).map (fun r => ("failed", r.2)) := by
      unfold handle_payment_webhook
      rw [if_neg (by decide), if_pos rfl]
    rw [h1, h2]
    cases PaymentService.complete_payment P db i <;> rfl
  · intro P db i p o hfind hpp hs ho
    obtain ⟨p', hcp, hid, hst⟩ := complete_payment_succeeded_run hfind hpp hs ho
    refine ⟨p', ?_, hcp, hst⟩
    unfold handle_payment_webhook
    rw [if_neg (by decide), if_pos rfl, hcp]
    rfl

/-- Claim C10, witness: on fxDbPay with a succeeded live intent, the two
event types produce the same state, and the payment_failed delivery itself
ends with the payment SUCCESSFUL and the order PAID. -/
theorem C10_witness :
    ((handle_payment_webhook fxProviderSucceeded fxDbPay "payment_intent.succeeded" "pi_0").map
        (fun r => r.2) =
     (handle_payment_webhook fxProviderSucceeded fxDbPay "payment_intent.payment_failed" "pi_0").map
        (fun r => r.2)) ∧
    ∃ p', handle_payment_webhook fxProviderSucceeded fxDbPay "payment_intent.payment_failed" "pi_0" =
        .ok ("failed", setPaymentStatus (setOrderStatus fxDbPay 1 .paid) 1 .successful) ∧
      PaymentService.complete_payment fxProviderSucceeded fxDbPay "pi_0" =
        .ok (p', setPaymentStatus (setOrderStatus fxDbPay 1 .paid) 1 .successful) ∧
      p'.status = PaymentStatus.successful :=
  ⟨C10_webhook_event_type_independent.1 fxProviderSucceeded fxDbPay "pi_0",
   C10_webhook_event_type_independent.2 fxProviderSucceeded fxDbPay "pi_0"
     fxPaymentPending fxOrderPending (by decide) (Or.inl rfl) rfl (by decide)⟩

/-- Claim C8: for every user whose cart exists, create_order excludes exactly
the items whose movie was already purchased (PAID) or already sits in a
PENDING order, returning their movie ids; it fails 400 "No valid items in
cart." when nothing remains eligible; on success the created order
contains exactly the eligible movies, in cart order, and the whole cart —
excluded items included — is deleted. -/
theorem C8_create_order_exclusion :
    ∀ (db : DB) (userId : Nat) (cart : Cart),
      CartRepository.get_by_user_id db userId = .ok cart →
      ((cart.items.filter (fun i => !(excludedItem db userId i)) = [] →
         OrdersService.create_order db userId =
           .error (.http 400 "No valid items in cart.")) ∧
       (∀ (o : Order) (excl : List Nat) (db' : DB),
         OrdersService.create_order db userId = .ok (o, excl, db') →
         excl = (cart.items.filter (excludedItem db userId)).map (fun i => i.movieId) ∧
         o.items.map (fun it => it.movieId) =
           (cart.items.filter (fun i => !(excludedItem db userId i))).map (fun i => i.movieId) ∧
         db'.carts.find? (fun c => c.userId = userId) = none)) := by
  intro db userId cart hcart
  constructor
  · intro hE
    have hs1 : OrdersService.create_order_stage1 db userId =
        .error (.http 400 "No valid items in cart.") := by
      unfold OrdersService.create_order_stage1
      simp only [hcart, split_cart_items_eq, hE]
      rfl
    unfold OrdersService.create_order
    rw [hs1]
  · intro o excl db' h
    obtain ⟨ho, hexcl, hdb'⟩ := create_order_ok_shape hcart h
    refine ⟨hexcl, ?_, ?_⟩
    · rw [ho]
      exact buildOrderItems_map_movieId _ _ _
    · rw [hdb']
      exact find?_carts_after_delete _ _

/-- Claim C8, witness: on fxDbCart (movies 1 and 2 in the cart, movie 1
already purchased) the created order holds exactly movie 2, the excluded
ids are [1] and the cart is gone; on fxDbCartAllOwned (movie 1 only)
nothing is eligible and the call fails 400. -/
theorem C8_witness :
    OrdersService.create_order fxDbCartAllOwned 1 =
      .error (.http 400 "No valid items in cart.") ∧
    ([1] = (fxCartBoth.items.filter (excludedItem fxDbCart 1)).map (fun i => i.movieId) ∧
     fxOrderCartNew.items.map (fun it => it.movieId) =
       (fxCartBoth.items.filter (fun i => !(excludedItem fxDbCart 1 i))).map
         (fun i => i.movieId) ∧
     fxDbCartAfter.carts.find? (fun c => c.userId = 1) = none) :=
  ⟨(C8_create_order_exclusion fxDbCartAllOwned 1 fxCartOwned (by decide)).1 (by decide),
   (C8_create_order_exclusion fxDbCart 1 fxCartBoth (by decide)).2
     fxOrderCartNew [1] fxDbCartAfter (by decide)⟩

/-- Claim C7: at creation, total_amount equals the sum of the order items'
price_at_order; and no later core operation — payment completion, refund,
cancellation, order completion, payment initiation, or a catalog price
change — ever changes the total_amount or items (hence any
price_at_order) of an existing order: each of them preserves every
order's (id, total_amount, items) triple, create_order only appends, and
update_movie only touches the catalog. -/
theorem C7_order_amounts_frozen :
    (∀ (db : DB) (userId : Nat) (o : Order) (excl : List Nat) (db' : DB),
       OrdersService.create_order db userId = .ok (o, excl, db') →
       o.totalAmount = (o.items.map (fun it => it.priceAtOrder)).sum ∧
       db'.orders.map orderCore = db.orders.map orderCore ++ [orderCore o]) ∧
    (∀ (P : PaymentProvider) (db : DB) (extId : String) (p : Payment) (db' : DB),
       PaymentService.complete_payment P db extId = .ok (p, db') →
       db'.orders.map orderCore = db.orders.map orderCore) ∧
    (∀ (P : PaymentProvider) (db : DB) (oid uid : Nat) (amt : Option Int)
       (p : Payment) (db' : DB),
       PaymentService.refund_payment P db oid uid amt = .ok (p, db') →
       db'.orders = db.orders) ∧
    (∀ (db : DB) (oid uid : Nat) (o : Order) (db' : DB),
       OrdersService.cancel_order db oid uid = .ok (o, db') →
       db'.orders.map orderCore = db.orders.map orderCore) ∧
    (∀ (db : DB) (oid : Nat) (ps : Bool) (o : Order) (db' : DB),
       OrdersService.complete_order db oid ps = .ok (o, db') →
       db'.orders.map orderCore = db.orders.map orderCore) ∧
    (∀ (P : PaymentProvider) (db : DB) (prov oid uid : Nat) (url : String)
       (db' : DB) (prov' : Nat),
       PaymentService.initiate_payment P db prov oid uid = .ok (url, db', prov') →
       db'.orders = db.orders) ∧
    (∀ (db : DB) (mid : Nat) (pr : Int),
       (MovieRepository.update_movie_price db mid pr).orders = db.orders) := by
  refine ⟨?_, ?_, ?_, ?_, ?_, ?_, ?_⟩
  · intro db userId o excl db' h
    cases hc : CartRepository.get_by_user_id db userId with
    | error e =>
      exfalso
      unfold OrdersService.create_order OrdersService.create_order_stage1 at h
      simp only [hc] at h
      exact Except.noConfusion h
    | ok cart =>
      obtain ⟨ho, hexcl, hdb'⟩ := create_order_ok_shape hc h
      constructor
      · rw [ho]
        dsimp only
        rw [buildOrderItems_map_price]
      · rw [hdb']
        dsimp only
        rw [List.map_append]
        rfl
  · intro P db extId p db' h
    rcases complete_payment_orders_shape h with heq | ⟨oid, heq⟩
    · rw [heq]
    · rw [heq]
      exact map_orderCore_setOrderStatus db.orders oid .paid
  · intro P db oid uid amt p db' h
    unfold PaymentService.refund_payment at h
    cases hg : OrderRepository.get_order_by_id db oid with
    | error e =>
      cases e <;> simp only [hg] at h <;> exact Except.noConfusion h
    | ok order =>
      simp only [hg] at h
      split at h
      · exact Except.noConfusion h
      · cases hp : PaymentsRepository.get_successful_payment_by_order_id db oid <;>
          simp only [hp] at h
        · exact Except.noConfusion h
        · split at h
          · exact Except.noConfusion h
          · split at h
            · exact Except.noConfusion h
            · split at h
              · rw [(update_payment_status_spec h).1]
                rfl
              · exact Except.noConfusion h
  · intro db oid uid o db' h
    unfold OrdersService.cancel_order at h
    cases hg : OrderRepository.get_order_by_id db oid with
    | error e =>
      cases e <;> simp only [hg] at h <;> exact Except.noConfusion h
    | ok order =>
      simp only [hg] at h
      split at h
      · exact Except.noConfusion h
      · split at h
        · exact Except.noConfusion h
        · rw [(update_order_status_spec h).1]
          exact map_orderCore_setOrderStatus db.orders oid .canceled
  · intro db oid ps o db' h
    unfold OrdersService.complete_order at h
    cases hg : OrderRepository.get_order_by_id db oid with
    | error e =>
      cases e <;> simp only [hg] at h <;> exact Except.noConfusion h
    | ok order =>
      simp only [hg] at h
      split at h
      · exact Except.noConfusion h
      · rw [(update_order_status_spec h).1]
        exact map_orderCore_setOrderStatus db.orders oid _
  · intro P db prov oid uid url db' prov' h
    unfold PaymentService.initiate_payment at h
    cases hg : OrderRepository.get_order_by_id db oid with
    | error e =>
      cases e <;> simp only [hg] at h <;> exact Except.noConfusion h
    | ok order =>
      simp only [hg] at h
      split at h
      · exact Except.noConfusion h
      · split at h
        · exact Except.noConfusion h
        · rcases hP : P.initiate oid order.totalAmount prov with ⟨u, eid, pr⟩
          simp only [hP] at h
          cases hf : PaymentsRepository.get_payment_by_external_id db eid <;>
            simp only [hf] at h
          · simp only [PaymentsRepository.create_payment, Except.ok.injEq,
              Prod.mk.injEq] at h
            rw [← h.2.1]
          · simp only [Except.ok.injEq, Prod.mk.injEq] at h
            rw [← h.2.1]
  · intro db mid pr
    rfl

/-- Claim C7, witness: every conjunct applied at a concrete successful run —
order creation on fxDbCart, payment completion and initiation, refund,
cancellation, completion, and a catalog price change. -/
theorem C7_witness :
    (fxOrderCartNew.totalAmount =
        (fxOrderCartNew.items.map (fun it => it.priceAtOrder)).sum ∧
      fxDbCartAfter.orders.map orderCore =
        fxDbCart.orders.map orderCore ++ [orderCore fxOrderCartNew]) ∧
    fxDbPayAfter.orders.map orderCore = fxDbPay.orders.map orderCore ∧
    fxDbRefunded.orders = fxDbSuccess.orders ∧
    fxDbCanceledNoPay.orders.map orderCore = fxDbPendingNoPay.orders.map orderCore ∧
    fxDbPaidNoPay.orders.map orderCore = fxDbPendingNoPay.orders.map orderCore ∧
    fxDbRetry1.orders = fxDbPendingNoPay.orders ∧
    (MovieRepository.update_movie_price fxDbCart 2 99).orders = fxDbCart.orders :=
  ⟨C7_order_amounts_frozen.1 fxDbCart 1 fxOrderCartNew [1] fxDbCartAfter (by decide),
   C7_order_amounts_frozen.2.1 fxProviderSucceeded fxDbPay "pi_0"
     fxPaymentSuccessful fxDbPayAfter (by decide),
   C7_order_amounts_frozen.2.2.1 fxProviderSucceeded fxDbSuccess 1 1 none
     fxPaymentRefunded fxDbRefunded (by decide),
   C7_order_amounts_frozen.2.2.2.1 fxDbPendingNoPay 1 1
     fxOrderCanceled fxDbCanceledNoPay (by decide),
   C7_order_amounts_frozen.2.2.2.2.1 fxDbPendingNoPay 1 true
     fxOrderPaid fxDbPaidNoPay (by decide),
   C7_order_amounts_frozen.2.2.2.2.2.1 fxProviderSucceeded fxDbPendingNoPay 0 1 1
     "cs_pi_0" fxDbRetry1 1 (by decide),
   C7_order_amounts_frozen.2.2.2.2.2.2 fxDbCart 2 99⟩

end Cinema
